import Mathlib

/-!
Verification of the WhytCard digital-human pipeline and its data lifecycle.

Shallow embedding, translated from the Python sources:
  addons/voice/src/research/extractor.py   (PersonProfile, Facette, SocialProfile)
  addons/voice/src/pipeline/orchestrator.py (PipelineConfig, PipelineResult, HumanPipeline)
  addons/voice/src/avatar/prompt_generator.py (PersonaPrompt, PromptGenerator)
  addons/voice/src/avatar/avatar.py        (AvatarEngine.chat / chat_stream)
  addons/ears/src/engine.py                (TranscriptionEngine._generate_summary)

Conventions of the embedding:
* JSON documents are modelled by the inductive `Json`; Python dicts by
  association lists (the serializers below never produce duplicate keys).
* Python string methods are modelled by structurally recursive functions on
  the character list of a `String` (`pyLower`, `pyReplaceChar`, `pySplit`,
  `pyStrip`, `joinSep`), so that every definition evaluates inside the kernel.
  `pyLower` lowercases ASCII letters (the names used in this repository).
* The filesystem is an association list from path strings to file contents;
  directory creation has no observable effect on the properties below and is
  not modelled.
* External collaborators (web searcher + extractor, audio downloader, vocal
  separator, document writer, persona writer, the LLM binding, the voice
  cloner) are abstracted by an environment record giving the outcome of each
  call: `Except.error m` models the call raising a Python exception whose
  `str` form is `m`.
* Fallible Python code (e.g. `json` field access that may raise `KeyError`)
  returns `Option`/`Except` here.
-/

/-! ## Python string primitives -/

/-- Model of Python `str.lower` restricted to ASCII letters. -/
def pyLower (s : String) : String := String.mk (s.data.map Char.toLower)

/-- Model of Python `str.replace(a, b)` for single-character arguments. -/
def pyReplaceChar (s : String) (a b : Char) : String :=
  String.mk (s.data.map (fun c => if c = a then b else c))

/-- Split a character list at every character satisfying `p`, keeping empty
segments, as Python `re.split` on a single-character class does. -/
def splitChars (p : Char → Bool) : List Char → List (List Char)
  | [] => [[]]
  | c :: rest =>
      match splitChars p rest with
      | [] => if p c then [[], []] else [[c]]
      | g :: gs => if p c then [] :: g :: gs else (c :: g) :: gs

/-- Model of splitting a Python string at every character satisfying `p`. -/
def pySplit (p : Char → Bool) (s : String) : List String :=
  (splitChars p s.data).map String.mk

/-- Model of Python `str.strip()`: drop whitespace from both ends. -/
def pyStrip (s : String) : String :=
  String.mk (((s.data.dropWhile Char.isWhitespace).reverse.dropWhile
    Char.isWhitespace).reverse)

/-- Model of Python `sep.join(parts)`. -/
def joinSep (sep : String) : List String → String
  | [] => ""
  | [x] => x
  | x :: xs => x ++ sep ++ joinSep sep xs

/-- Truthiness of a Python `Optional[str]`: `None` and `""` are falsy. -/
def isTruthy : Option String → Bool
  | none => false
  | some s => s ≠ ""

/-! ## JSON documents -/

/-- JSON values, as written by `json.dump` and read by `json.load`.
Numbers never occur in the documents this development manipulates. -/
inductive Json where
  | null : Json
  | str (s : String) : Json
  | bool (b : Bool) : Json
  | arr (elems : List Json) : Json
  | obj (fields : List (String × Json)) : Json
deriving Repr

/-- Lookup of a key in a JSON object; `none` for a missing key or a
non-object, where Python raises `KeyError`/`TypeError`. -/
def Json.lookup : Json → String → Option Json
  | .obj kvs, k => List.lookup k kvs
  | _, _ => none

/-- Model of Python `data.get(k, dflt)`: the stored value when the key is
present (even when that value is JSON `null`), the default otherwise. -/
def Json.getD (data : Json) (k : String) (dflt : Json) : Json :=
  (data.lookup k).getD dflt

/-- Fields of a JSON object (`none` on a non-object). -/
def Json.asObj : Json → Option (List (String × Json))
  | .obj kvs => some kvs
  | _ => none

/-- Elements of a JSON array (`none` on a non-array). -/
def Json.asArr : Json → Option (List Json)
  | .arr js => some js
  | _ => none

/-- A JSON string (`none` on any other value). -/
def Json.asStr : Json → Option String
  | .str s => some s
  | _ => none

/-- A JSON string or `null`, modelling a Python `Optional[str]` field. -/
def Json.asStrOpt : Json → Option (Option String)
  | .null => some none
  | .str s => some (some s)
  | _ => none

/-- Decode a list of JSON strings. -/
def decodeStrs : List Json → Option (List String)
  | [] => some []
  | j :: js => do
      let s ← j.asStr
      let rest ← decodeStrs js
      some (s :: rest)

/-- Decode a JSON array of strings. -/
def Json.asStrList (j : Json) : Option (List String) := do
  decodeStrs (← j.asArr)

/-- Serialization of a Python `Optional[str]` field. -/
def optStrJson : Option String → Json
  | none => .null
  | some s => .str s

/-! ## PersonProfile (research/extractor.py) -/

/-- Social media profile record (`SocialProfile` dataclass). -/
structure SocialProfile where
  platform : String
  url : String
  username : Option String
  verified : Bool
deriving Repr, DecidableEq

/-- Facette of a person's identity (`Facette` dataclass). -/
structure Facette where
  name : String
  description : String
  color : Option String
  symbol : Option String
  keywords : List String
  sources : List String
deriving Repr, DecidableEq

/-- Structured profile of a person (`PersonProfile` dataclass).
`raw_info` is the free-form extended-data dict. -/
structure PersonProfile where
  name : String
  aliases : List String
  professions : List String
  bio : Option String
  location : Option String
  social_profiles : List SocialProfile
  facettes : List Facette
  keywords : List String
  sources : List String
  raw_info : List (String × Json)
  created_at : String
deriving Repr

/-- Serialization of one social profile inside `PersonProfile.to_dict`
(only `platform`, `url` and `username` are written). -/
def SocialProfile.entryJson (sp : SocialProfile) : Json :=
  .obj [("platform", .str sp.platform), ("url", .str sp.url),
        ("username", optStrJson sp.username)]

/-- Serialization of one facette inside `PersonProfile.to_dict`
(only `name`, `description`, `color`, `symbol` and `keywords` are written;
`sources` is not). -/
def Facette.entryJson (f : Facette) : Json :=
  .obj [("name", .str f.name), ("description", .str f.description),
        ("color", optStrJson f.color), ("symbol", optStrJson f.symbol),
        ("keywords", .arr (f.keywords.map .str))]

/-- Model of `PersonProfile.to_dict`, the document that `save` writes
(`raw_info` is not serialized). -/
def PersonProfile.to_dict (p : PersonProfile) : Json :=
  .obj [("name", .str p.name),
        ("aliases", .arr (p.aliases.map .str)),
        ("professions", .arr (p.professions.map .str)),
        ("bio", optStrJson p.bio),
        ("location", optStrJson p.location),
        ("social_profiles", .arr (p.social_profiles.map SocialProfile.entryJson)),
        ("facettes", .arr (p.facettes.map Facette.entryJson)),
        ("keywords", .arr (p.keywords.map .str)),
        ("sources", .arr (p.sources.map .str)),
        ("created_at", .str p.created_at)]

/-- Keys that `PersonProfile.load` treats as structured; every other key of
the document goes to `raw_info`. -/
def knownProfileKeys : List String :=
  ["name", "aliases", "professions", "occupations", "bio",
   "biography", "location", "social_profiles", "facettes",
   "keywords", "sources", "created_at", "personality_traits"]

/-- Decode one entry of `social_profiles` as `load` rebuilds it
(`username` falls back to `handle`; `verified` is not restored). -/
def decodeSocial (j : Json) : Option SocialProfile := do
  let _ ← j.asObj
  let platform ← (j.getD "platform" (.str "unknown")).asStr
  let url ← (j.getD "url" (.str "")).asStr
  let username ← (j.getD "username" (j.getD "handle" .null)).asStrOpt
  some { platform, url, username, verified := false }

/-- Decode the `social_profiles` array. -/
def decodeSocials : List Json → Option (List SocialProfile)
  | [] => some []
  | j :: js => do
      let sp ← decodeSocial j
      let rest ← decodeSocials js
      some (sp :: rest)

/-- Decode one entry of `facettes` as `load` rebuilds it
(`symbol` falls back to `element`; `sources` is not restored). -/
def decodeFacette (j : Json) : Option Facette := do
  let _ ← j.asObj
  let name ← (j.getD "name" (.str "")).asStr
  let description ← (j.getD "description" (.str "")).asStr
  let color ← (j.getD "color" .null).asStrOpt
  let symbol ← (j.getD "symbol" (j.getD "element" .null)).asStrOpt
  let keywords ← (j.getD "keywords" (.arr [])).asStrList
  some { name, description, color, symbol, keywords, sources := [] }

/-- Decode the `facettes` array. -/
def decodeFacettes : List Json → Option (List Facette)
  | [] => some []
  | j :: js => do
      let f ← decodeFacette j
      let rest ← decodeFacettes js
      some (f :: rest)

/-- Model of `PersonProfile.load`. `now` stands for the
`datetime.now().isoformat()` default used when `created_at` is absent.
The document must be an object with a `name` key (`data["name"]` raises
otherwise) and well-typed fields; `load` tolerates the documented aliases
`occupations` for `professions`, `biography` for `bio`, `personality_traits`
for `keywords`, `handle` for a social profile's `username` and `element` for
a facette's `symbol`. -/
def PersonProfile.load (now : String) (data : Json) : Option PersonProfile := do
  let kvs ← data.asObj
  let nameJ ← data.lookup "name"
  let name ← nameJ.asStr
  let aliases ← (data.getD "aliases" (.arr [])).asStrList
  let professions ← (data.getD "professions" (data.getD "occupations" (.arr []))).asStrList
  let bio ← (data.getD "bio" (data.getD "biography" .null)).asStrOpt
  let location ← (data.getD "location" .null).asStrOpt
  let keywords ← (data.getD "keywords" (data.getD "personality_traits" (.arr []))).asStrList
  let sources ← (data.getD "sources" (.arr [])).asStrList
  let created_at ← (data.getD "created_at" (.str now)).asStr
  let raw_info := kvs.filter (fun kv => !(knownProfileKeys.contains kv.1))
  let social_profiles ← do decodeSocials (← (data.getD "social_profiles" (.arr [])).asArr)
  let facettes ← do decodeFacettes (← (data.getD "facettes" (.arr [])).asArr)
  some { name, aliases, professions, bio, location, social_profiles,
         facettes, keywords, sources, raw_info, created_at }

/-- What one save/load cycle does to a facette: `sources` is dropped. -/
def Facette.reload (f : Facette) : Facette := { f with sources := [] }

/-- What one save/load cycle does to a social profile: `verified` is reset. -/
def SocialProfile.reload (sp : SocialProfile) : SocialProfile :=
  { sp with verified := false }

/-- Rename one top-level key of a JSON object, modelling a hand-edited
document that uses an alternate field name. -/
def renameKey (oldKey newKey : String) : Json → Json
  | .obj kvs => .obj (kvs.map (fun kv => if kv.1 = oldKey then (newKey, kv.2) else kv))
  | j => j

/-! ## Persona prompts (avatar/prompt_generator.py) -/

/-- Persona prompt record (`PersonaPrompt` dataclass). -/
structure PersonaPrompt where
  name : String
  system_prompt : String
  personality_traits : List String
  speaking_style : Option String
  knowledge_domains : List String
  example_phrases : List String
  facettes : List Facette
  metadata : List (String × Json)
deriving Repr

/-- Document written by `PersonaPrompt.save`. -/
def PersonaPrompt.saveJson (pp : PersonaPrompt) : Json :=
  .obj [("name", .str pp.name),
        ("system_prompt", .str pp.system_prompt),
        ("personality_traits", .arr (pp.personality_traits.map .str)),
        ("speaking_style", optStrJson pp.speaking_style),
        ("knowledge_domains", .arr (pp.knowledge_domains.map .str)),
        ("example_phrases", .arr (pp.example_phrases.map .str)),
        ("facettes", .arr (pp.facettes.map Facette.entryJson)),
        ("metadata", .obj pp.metadata)]

/-- Suffix appended to a facette heading when its color is truthy. -/
def colorSuffix : Option String → String
  | some c => if c = "" then "" else " (" ++ c ++ ")"
  | none => ""

/-- Lines contributed by one facette to the facettes section of the
default persona template. -/
def facetteLines (f : Facette) : List String :=
  ["### " ++ f.name ++ colorSuffix f.color, f.description] ++
  (if f.keywords ≠ [] then ["Mots-cles: " ++ joinSep ", " f.keywords] else []) ++
  [""]

/-- Instantiation of `PromptGenerator.DEFAULT_TEMPLATE` (`str.format` with the
seven placeholders substituted). -/
def defaultTemplateRender (name bio personality_section speaking_style
    knowledge_section facettes_section additional_instructions : String) : String :=
  "Tu es " ++ name ++ ", une vraie personne avec une personnalite unique.\n\n" ++
  "## Identite\n" ++ bio ++ "\n\n" ++
  "## Traits de personnalite\n" ++ personality_section ++ "\n\n" ++
  "## Style de communication\n" ++ speaking_style ++ "\n\n" ++
  "## Domaines d\x27expertise\n" ++ knowledge_section ++ "\n\n" ++
  "## Facettes de ta personnalite\n" ++ facettes_section ++ "\n\n" ++
  "## Instructions\n" ++
  "- Reponds toujours comme si tu etais vraiment " ++ name ++ "\n" ++
  "- Utilise ton style de communication naturel\n" ++
  "- Puise dans tes domaines d\x27expertise pour enrichir tes reponses\n" ++
  "- Exprime ta personnalite a travers tes differentes facettes\n" ++
  "- Sois authentique et coherent avec ton identite\n\n" ++
  additional_instructions ++ "\n"

/-- Model of `PromptGenerator.generate` on the default template (the
orchestrator constructs `PromptGenerator()` with no templates directory and
calls `generate(profile)`, so `template_name` is `None`,
`additional_instructions` is `""` and `speaking_style` is `None`). -/
def PromptGenerator.generate (profile : PersonProfile)
    (additional_instructions : String) (speaking_style : Option String) :
    PersonaPrompt :=
  let personality_traits :=
    if profile.keywords ≠ [] then profile.keywords.take 10
    else ["authentique", "passionne", "expressif"]
  let personality_section :=
    joinSep "\n" (personality_traits.map (fun t => "- " ++ t))
  let knowledge_domains :=
    if profile.professions ≠ [] then profile.professions
    else ["son domaine d\x27expertise"]
  let knowledge_section :=
    joinSep "\n" (knowledge_domains.map (fun d => "- " ++ d))
  let facettes_section :=
    if profile.facettes ≠ [] then
      joinSep "\n" (profile.facettes.map facetteLines).flatten
    else "Personnalite riche et multifacette."
  let style := speaking_style.getD "Naturel, expressif, avec une touche de creativite."
  let bio := profile.bio.getD
    (profile.name ++ " est une personne unique avec de nombreuses facettes.")
  { name := profile.name,
    system_prompt := defaultTemplateRender profile.name bio personality_section
      style knowledge_section facettes_section additional_instructions,
    personality_traits,
    speaking_style := some style,
    knowledge_domains,
    example_phrases := [],
    facettes := profile.facettes,
    metadata := [("sources", Json.arr (profile.sources.map .str)),
                 ("created_from", .str "PersonProfile")] }

/-! ## Filesystem and external environment -/

/-- Contents of one file under the subject directory. Markdown documents are
kept as their semantic payload (none of the verified code reads them back). -/
inductive File where
  | jsonFile (j : Json)
  | textFile (s : String)
  | profileDoc (p : PersonProfile)
  | facettesDoc (subject : String) (facettes : List Facette)

/-- Filesystem: association of path strings to file contents. -/
def FS := List (String × File)

/-- Read a file. -/
def FS.get (fs : FS) (path : String) : Option File := List.lookup path fs

/-- Write (create or overwrite) a file. -/
def FS.set (fs : FS) (path : String) (f : File) : FS :=
  (path, f) :: List.filter (fun kv => kv.1 ≠ path) fs

/-- Result record of one external call that returns a success flag and a
path (the audio downloader and the vocal separator). -/
structure ExtCallResult where
  success : Bool
  output_path : String
  error : String
deriving Repr, DecidableEq

/-- Outcomes of the external collaborators during one pipeline run.
An `Except.error m` models the call raising an exception with `str` form `m`. -/
structure Env where
  /-- `PersonSearcher.search` followed by `InfoExtractor.extract_profile`. -/
  search_extract : Except String PersonProfile
  /-- `AudioDownloader.download`. -/
  download : Except String ExtCallResult
  /-- `VocalSeparator.separate`. -/
  separate : Except String ExtCallResult
  /-- Whether `Path(config.audio_file).exists()`. -/
  audio_file_exists : Bool
  /-- Message of the exception raised by `PersonProfile.load` when the
  profile document on disk is malformed. -/
  load_err : String
  /-- `DocumentGenerator.generate_profile` / `generate_facettes` writes. -/
  docWrite : Except String Unit
  /-- `persona.save` and the `system_prompt.txt` write. -/
  personaWrite : Except String Unit
  /-- `datetime.now().isoformat()`, used as the `created_at` default. -/
  now : String

/-! ## Pipeline configuration and result (pipeline/orchestrator.py) -/

/-- Configuration for the pipeline (`PipelineConfig` dataclass, with its
source defaults). -/
structure PipelineConfig where
  subject_name : String
  subject_context : Option String := none
  data_dir : String := "data/subjects"
  models_dir : String := "models"
  audio_url : Option String := none
  audio_file : Option String := none
  gguf_model : String := "models/gguf/qwen2.5-coder-7b-instruct-q4_k_m.gguf"
  enable_voice : Bool := true
  language : String := "fr"
deriving Repr

/-- Model of `PipelineConfig.get_subject_dir`:
`Path(self.data_dir) / self.subject_name.lower().replace(" ", "_")`. -/
def PipelineConfig.get_subject_dir (c : PipelineConfig) : String :=
  c.data_dir ++ "/" ++ pyReplaceChar (pyLower c.subject_name) ' ' '_'

/-- Result of the pipeline execution (`PipelineResult` dataclass). -/
structure PipelineResult where
  success : Bool
  subject_name : String
  subject_dir : String
  profile_path : Option String := none
  persona_path : Option String := none
  vocals_path : Option String := none
  error : Option String := none
  steps_completed : List String := []
deriving Repr

/-- Mutable state threaded through the phases: the orchestrator's
`self.result` plus the filesystem. -/
def PipelineState := PipelineResult × FS

/-- Record a caught exception on the result, as the phases' handlers do
(`self.result.error = str(e)`). -/
def setError (st : PipelineState) (m : String) : PipelineState :=
  ({ st.1 with error := some m }, st.2)

/-- Model of `HumanPipeline.run_research`: search, extract, save the profile
document, record its path and the step name. -/
def runResearch (env : Env) (dir : String) (st : PipelineState) :
    Bool × PipelineState :=
  match env.search_extract with
  | .error e => (false, setError st e)
  | .ok profile =>
      let profilePath := dir ++ "/research/profile.json"
      (true, ({ st.1 with profile_path := some profilePath,
                          steps_completed := st.1.steps_completed ++ ["research"] },
              st.2.set profilePath (.jsonFile profile.to_dict)))

/-- Vocal-separation tail of the audio phase, reached once an audio file is
at hand. -/
def separateStep (env : Env) (st : PipelineState) : Bool × PipelineState :=
  match env.separate with
  | .error e => (false, setError st e)
  | .ok r =>
      if r.success then
        (true, ({ st.1 with vocals_path := some r.output_path,
                            steps_completed := st.1.steps_completed ++ ["audio"] },
                st.2))
      else (false, setError st ("Separation failed: " ++ r.error))

/-- Model of `HumanPipeline.run_audio`: download when a URL is configured
(else check the local file), then separate vocals; with no audio source at
all the phase returns `True` without recording a step. -/
def runAudio (env : Env) (cfg : PipelineConfig) (st : PipelineState) :
    Bool × PipelineState :=
  if isTruthy cfg.audio_url then
    match env.download with
    | .error e => (false, setError st e)
    | .ok r =>
        if r.success then separateStep env st
        else (false, setError st ("Download failed: " ++ r.error))
  else
    match cfg.audio_file with
    | some f =>
        if isTruthy (some f) then
          if env.audio_file_exists then separateStep env st
          else (false, setError st ("Audio file not found: " ++ f))
        else (true, st)
    | none => (true, st)

/-- Read and decode the profile document, as `PersonProfile.load` does in the
documentation and persona phases; a malformed document raises, with
`env.load_err` standing for the exception's message. -/
def loadProfileFile (env : Env) : File → Except String PersonProfile
  | .jsonFile j =>
      match PersonProfile.load env.now j with
      | some p => .ok p
      | none => .error env.load_err
  | _ => .error env.load_err

/-- Model of `HumanPipeline.run_documentation`: a missing profile document
skips the phase (returning `True`); otherwise load it and write
`docs/profile.md` (and `docs/facettes.md` when the profile has facettes). -/
def runDocumentation (env : Env) (dir : String) (st : PipelineState) :
    Bool × PipelineState :=
  match st.2.get (dir ++ "/research/profile.json") with
  | none => (true, st)
  | some file =>
      match loadProfileFile env file with
      | .error e => (false, setError st e)
      | .ok profile =>
          match env.docWrite with
          | .error e => (false, setError st e)
          | .ok _ =>
              let fs1 := st.2.set (dir ++ "/docs/profile.md") (.profileDoc profile)
              let fs2 :=
                if profile.facettes ≠ [] then
                  fs1.set (dir ++ "/docs/facettes.md")
                    (.facettesDoc profile.name profile.facettes)
                else fs1
              (true, ({ st.1 with
                          steps_completed := st.1.steps_completed ++ ["documentation"] },
                      fs2))

/-- Model of `HumanPipeline.run_persona`: a missing profile document skips
the phase (returning `True`); otherwise load it, generate the persona with
the default prompt generator, save `persona.json` and `system_prompt.txt`,
record the persona path and the step name. -/
def runPersona (env : Env) (dir : String) (st : PipelineState) :
    Bool × PipelineState :=
  match st.2.get (dir ++ "/research/profile.json") with
  | none => (true, st)
  | some file =>
      match loadProfileFile env file with
      | .error e => (false, setError st e)
      | .ok profile =>
          let persona := PromptGenerator.generate profile "" none
          match env.personaWrite with
          | .error e => (false, setError st e)
          | .ok _ =>
              let personaPath := dir ++ "/persona.json"
              let fs1 := st.2.set personaPath (.jsonFile persona.saveJson)
              let fs2 := fs1.set (dir ++ "/system_prompt.txt")
                (.textFile persona.system_prompt)
              (true,
               ({ st.1 with
                    persona_path := some personaPath,
                    steps_completed := st.1.steps_completed ++ ["persona"] },
                fs2))

/-- Output of one full run: the result record, the final filesystem, and the
list of phases that were attempted (entered), in order. -/
def RunOutput := PipelineResult × FS × List String

/-- Persona stage of `HumanPipeline.run` (phase 4 and the final
`success = True`). -/
def runFromPersona (env : Env) (dir : String) (st : PipelineState)
    (trace : List String) : RunOutput :=
  match runPersona env dir st with
  | (true, st1) => ({ st1.1 with success := true }, st1.2, trace ++ ["persona"])
  | (false, st1) => (st1.1, st1.2, trace ++ ["persona"])

/-- Documentation stage of `HumanPipeline.run` (phase 3 onwards). -/
def runFromDocumentation (env : Env) (dir : String) (st : PipelineState)
    (trace : List String) : RunOutput :=
  match runDocumentation env dir st with
  | (true, st1) => runFromPersona env dir st1 (trace ++ ["documentation"])
  | (false, st1) => (st1.1, st1.2, trace ++ ["documentation"])

/-- Audio stage of `HumanPipeline.run` (phase 2 onwards): the audio phase is
entered only when an audio URL or file is configured. -/
def runFromAudio (env : Env) (cfg : PipelineConfig) (dir : String)
    (st : PipelineState) (trace : List String) : RunOutput :=
  if isTruthy cfg.audio_url || isTruthy cfg.audio_file then
    match runAudio env cfg st with
    | (true, st1) => runFromDocumentation env dir st1 (trace ++ ["audio"])
    | (false, st1) => (st1.1, st1.2, trace ++ ["audio"])
  else runFromDocumentation env dir st trace

/-- Result record built by `HumanPipeline.__init__`. -/
def initResult (cfg : PipelineConfig) : PipelineResult :=
  { success := false, subject_name := cfg.subject_name,
    subject_dir := cfg.get_subject_dir }

/-- Model of `HumanPipeline(config)` construction followed by
`run(skip_research)`. With `skip_research` the research phase is bypassed and
`profile_path` is pointed at the conventional location unconditionally. -/
def HumanPipeline.run (env : Env) (cfg : PipelineConfig) (skip_research : Bool)
    (fs : FS) : RunOutput :=
  let dir := cfg.get_subject_dir
  let st0 : PipelineState := (initResult cfg, fs)
  if skip_research then
    let st1 : PipelineState :=
      ({ st0.1 with profile_path := some (dir ++ "/research/profile.json") }, st0.2)
    runFromAudio env cfg dir st1 []
  else
    match runResearch env dir st0 with
    | (true, st1) => runFromAudio env cfg dir st1 ["research"]
    | (false, st1) => (st1.1, st1.2, ["research"])

/-! ## Avatar engine (avatar/avatar.py) -/

/-- A message in a conversation (`ConversationMessage` dataclass). -/
structure ConversationMessage where
  role : String
  content : String
deriving Repr, DecidableEq

/-- Response from the avatar (`AvatarResponse` dataclass; `generation_time`
is wall-clock time and is not modelled). -/
structure AvatarResponse where
  text : String
  audio_path : Option String
  tokens_used : Nat
deriving Repr, DecidableEq

/-- Result of `VoiceCloner.clone_voice` (`CloneResult` dataclass). The
cloner catches every exception internally and reports it through
`success = false`, so the call itself never raises. -/
structure CloneResult where
  success : Bool
  text : String
  output_path : Option String
  error : Option String
deriving Repr, DecidableEq

/-- External outcomes for one `chat` / `chat_stream` call: what the LLM
binding returns and what the voice cloner would do on a given text. -/
structure ChatEnv where
  /-- Generated text before `strip`. -/
  llm_text : String
  /-- Reported `total_tokens`. -/
  llm_tokens : Nat
  /-- Streamed text fragments, in order. -/
  llm_stream : List String
  /-- Outcome of `VoiceCloner.clone_voice` on a given text. -/
  clone_voice : String → CloneResult

/-- Mutable state of one `AvatarEngine` instance. -/
structure EngineState where
  history : List ConversationMessage
  response_counter : Nat
  /-- Whether `self.voice_cloner` was initialized (voice enabled and a
  speaker sample given at construction). -/
  has_voice_cloner : Bool
  speaker_wav : Option String
deriving Repr

/-- Model of `AvatarEngine.chat`. Returns the response, the updated engine
state, and the list of texts the voice cloner was invoked with. -/
def AvatarEngine.chat (env : ChatEnv) (eng : EngineState) (message : String)
    (synthesize_voice : Bool) : AvatarResponse × EngineState × List String :=
  let text := pyStrip env.llm_text
  let hist := eng.history ++ [⟨"user", message⟩, ⟨"assistant", text⟩]
  if synthesize_voice && eng.has_voice_cloner && isTruthy eng.speaker_wav then
    let vr := env.clone_voice text
    let audio := if vr.success then vr.output_path else none
    (⟨text, audio, env.llm_tokens⟩,
     { eng with history := hist, response_counter := eng.response_counter + 1 },
     [text])
  else
    (⟨text, none, env.llm_tokens⟩, { eng with history := hist }, [])

/-- State of the generator object returned by `AvatarEngine.chat_stream`:
the accumulated `full_response`, the fragments the LLM has yet to yield,
whether the generator has finished, and the engine's history it mutates. -/
structure StreamGen where
  message : String
  full_response : String
  remaining : List String
  closed : Bool
  history : List ConversationMessage
deriving Repr, DecidableEq

/-- Generator created by calling `chat_stream(message)`; the body has not
run yet and the history is untouched. -/
def chatStreamStart (env : ChatEnv) (eng : EngineState) (message : String) :
    StreamGen :=
  { message, full_response := "", remaining := env.llm_stream,
    closed := false, history := eng.history }

/-- One `next()` call on the generator: yield the next fragment, or — once
the LLM stream is exhausted — run the code after the loop (append the user
and assistant turns to the history) and stop. -/
def streamNext (g : StreamGen) : Option String × StreamGen :=
  if g.closed then (none, g)
  else
    match g.remaining with
    | t :: ts =>
        (some t, { g with full_response := g.full_response ++ t, remaining := ts })
    | [] =>
        (none, { g with closed := true,
                        history := g.history ++
                          [⟨"user", g.message⟩,
                           ⟨"assistant", pyStrip g.full_response⟩] })

/-- A consumer that performs `k` `next()` calls and then abandons the
generator. -/
def streamConsume (g : StreamGen) : Nat → StreamGen
  | 0 => g
  | k + 1 => streamConsume (streamNext g).2 k

/-! ## Transcription summary (ears/src/engine.py) -/

/-- Sentence splitting in `_generate_summary`: `re.split(r"[.!?]+", text)`,
then strip each piece and keep the non-empty ones. Splitting on the
one-or-more character class agrees with splitting at every single `.`, `!`,
`?` once the empty segments are dropped. -/
def splitSentences (text : String) : List String :=
  ((pySplit (fun c => c == '.' || c == '!' || c == '?') text).map pyStrip).filter
    (fun s => s ≠ "")

/-- Model of `TranscriptionEngine._generate_summary`: keep the first
`max_points` sentences, drop those of length at most 20, render each kept
one as a "- " line; fixed fallback strings when nothing remains. -/
def generate_summary (text : String) (max_points : Nat) : String :=
  let sentences := splitSentences text
  if sentences = [] then "Aucun contenu a resumer."
  else
    let summary_sentences := sentences.take max_points
    let summary_points :=
      (summary_sentences.filter (fun s => 20 < s.length)).map (fun s => "- " ++ s)
    if summary_points = [] then "Contenu trop court pour resumer."
    else joinSep "\n" summary_points

/-- Summary as claim C9 words it (a second definition following the spec, to
be compared with `generate_summary`): the first `max_points` sentences, each
rendered as a "- "-prefixed line. -/
def summarySpec (text : String) (max_points : Nat) : String :=
  joinSep "\n" (((splitSentences text).take max_points).map (fun s => "- " ++ s))

/-! ## Phases and in-phase exceptions, for the failure-semantics claim -/

/-- The four orchestrator phases, in their fixed order. -/
inductive Phase where
  | research
  | audio
  | documentation
  | persona
deriving Repr, DecidableEq

/-- Position of a phase in the fixed order. -/
def Phase.idx : Phase → Nat
  | .research => 0
  | .audio => 1
  | .documentation => 2
  | .persona => 3

/-- Step name a phase appends to `steps_completed` when it succeeds. -/
def Phase.step : Phase → String
  | .research => "research"
  | .audio => "audio"
  | .documentation => "documentation"
  | .persona => "persona"

/-- The research stage of `run` does not abort: it was skipped, or the
search/extract call returned a profile. -/
def researchPasses (env : Env) (skip : Bool) : Prop :=
  skip = true ∨ ∃ p, env.search_extract = .ok p

/-- The separation tail of the audio phase raises with message `m`. -/
def separateRaises (env : Env) (m : String) : Prop :=
  env.separate = .error m ∨
  ∃ r, env.separate = .ok r ∧ r.success = false ∧ m = "Separation failed: " ++ r.error

/-- The audio phase is entered and raises with message `m`. -/
def audioRaises (env : Env) (cfg : PipelineConfig) (m : String) : Prop :=
  (isTruthy cfg.audio_url = true ∧
    (env.download = .error m ∨
     (∃ r, env.download = .ok r ∧ r.success = false ∧
        m = "Download failed: " ++ r.error) ∨
     (∃ r, env.download = .ok r ∧ r.success = true ∧ separateRaises env m))) ∨
  (isTruthy cfg.audio_url = false ∧ isTruthy cfg.audio_file = true ∧
    ((env.audio_file_exists = false ∧
        ∃ f, cfg.audio_file = some f ∧ m = "Audio file not found: " ++ f) ∨
     (env.audio_file_exists = true ∧ separateRaises env m)))

/-- The audio stage of `run` does not abort: no audio source was configured
(the phase is skipped), or download/separation succeed. -/
def audioPasses (env : Env) (cfg : PipelineConfig) : Prop :=
  ((isTruthy cfg.audio_url || isTruthy cfg.audio_file) = false) ∨
  (isTruthy cfg.audio_url = true ∧
    ∃ r s, env.download = .ok r ∧ r.success = true ∧
      env.separate = .ok s ∧ s.success = true) ∨
  (isTruthy cfg.audio_url = false ∧ isTruthy cfg.audio_file = true ∧
    env.audio_file_exists = true ∧ ∃ s, env.separate = .ok s ∧ s.success = true)

/-- Filesystem reaching the documentation phase: the research phase wrote
the profile document unless it was skipped (the audio phase writes nothing
that later phases read). -/
def fsAfterResearch (env : Env) (cfg : PipelineConfig) (skip : Bool) (fs : FS) :
    FS :=
  if skip then fs
  else
    match env.search_extract with
    | .ok p => fs.set (cfg.get_subject_dir ++ "/research/profile.json")
        (.jsonFile p.to_dict)
    | .error _ => fs

/-- The documentation phase is entered with a profile document present and
raises with message `m` (a malformed document, or a failing write). -/
def docRaises (env : Env) (dir : String) (fs1 : FS) (m : String) : Prop :=
  ∃ file, fs1.get (dir ++ "/research/profile.json") = some file ∧
    (loadProfileFile env file = .error m ∨
     (∃ p, loadProfileFile env file = .ok p ∧ env.docWrite = .error m))

/-- The documentation stage does not abort: no profile document (the phase
skips), or loading and writing both succeed. -/
def docPasses (env : Env) (dir : String) (fs1 : FS) : Prop :=
  fs1.get (dir ++ "/research/profile.json") = none ∨
  (∃ file p, fs1.get (dir ++ "/research/profile.json") = some file ∧
    loadProfileFile env file = .ok p ∧ env.docWrite = .ok ())

/-- The persona phase is entered with a readable profile document and its
writes raise with message `m`. -/
def personaRaises (env : Env) (dir : String) (fs1 : FS) (m : String) : Prop :=
  ∃ file p, fs1.get (dir ++ "/research/profile.json") = some file ∧
    loadProfileFile env file = .ok p ∧ env.personaWrite = .error m

/-- During `run env cfg skip fs`, phase `ph` is the first to raise an
exception, and that exception's string form is `m`. -/
def raisesAt (env : Env) (cfg : PipelineConfig) (skip : Bool) (fs : FS) :
    Phase → String → Prop
  | .research, m => skip = false ∧ env.search_extract = .error m
  | .audio, m => researchPasses env skip ∧ audioRaises env cfg m
  | .documentation, m => researchPasses env skip ∧ audioPasses env cfg ∧
      docRaises env cfg.get_subject_dir (fsAfterResearch env cfg skip fs) m
  | .persona, m => researchPasses env skip ∧ audioPasses env cfg ∧
      docPasses env cfg.get_subject_dir (fsAfterResearch env cfg skip fs) ∧
      personaRaises env cfg.get_subject_dir (fsAfterResearch env cfg skip fs) m

/-- Normalization the orchestrator applies to a subject name to obtain the
directory key. -/
def normalizeSubjectName (n : String) : String :=
  pyReplaceChar (pyLower n) ' ' '_'

/-- Name field of a JSON file, for inspecting persisted artifacts. -/
def fileNameField : Option File → Option String
  | some (.jsonFile j) => (j.getD "name" .null).asStr
  | _ => none

/-! ## Concrete inputs used by counterexamples and witnesses -/

/-- Profile whose single facette carries a non-empty `sources` list. -/
def profileWithFacetteSources : PersonProfile :=
  { name := "Jane Roe",
    aliases := [],
    professions := ["engineer"],
    bio := some "An engineer.",
    location := none,
    social_profiles := [],
    facettes := [{ name := "builder", description := "builds things",
                   color := some "blue", symbol := none,
                   keywords := ["making"],
                   sources := ["https://example.com/facette"] }],
    keywords := ["curious"],
    sources := [],
    raw_info := [],
    created_at := "2026-01-01T00:00:00" }

/-- Profile the stubbed research returns for the example scenario. -/
def johnProfile : PersonProfile :=
  { name := "John Doe",
    aliases := [],
    professions := ["software engineer"],
    bio := some "John Doe is a software engineer.",
    location := some "Paris",
    social_profiles := [],
    facettes := [],
    keywords := ["software", "engineering"],
    sources := ["https://example.com/john"],
    raw_info := [("search_query", Json.str "John Doe")],
    created_at := "2026-10-12T00:00:00" }

/-- Configuration for the example scenario: subject "John Doe", source
defaults, no audio source. -/
def johnConfig : PipelineConfig := { subject_name := "John Doe" }

/-- Environment in which every external call succeeds and research yields
`johnProfile`. -/
def johnEnv : Env :=
  { search_extract := .ok johnProfile,
    download := .ok { success := true, output_path := "dl.wav", error := "" },
    separate := .ok { success := true, output_path := "vocals.wav", error := "" },
    audio_file_exists := false,
    load_err := "malformed profile",
    docWrite := .ok (),
    personaWrite := .ok (),
    now := "2026-10-12T00:00:01" }

/-- Environment whose research call raises an exception with an empty
string form (`Exception("")`). -/
def emptyMsgEnv : Env := { johnEnv with search_extract := .error "" }

/-- Environment whose research call raises with message "boom". -/
def boomEnv : Env := { johnEnv with search_extract := .error "boom" }

/-- Transcription whose first sentence is 20 characters or shorter. -/
def shortFirstSentenceText : String :=
  "Hi. This is a sentence that is quite long indeed."

/-- Configuration differing from `johnConfig` only in the subject name's
case; it normalizes to the same directory key. -/
def johnConfigUpper : PipelineConfig := { subject_name := "John DOE" }

/-- Engine state with an initialized voice cloner and a reference sample. -/
def engVoice : EngineState :=
  { history := [], response_counter := 0,
    has_voice_cloner := true, speaker_wav := some "ref.wav" }

/-- Chat environment whose voice cloner always fails. -/
def chatEnvFail : ChatEnv :=
  { llm_text := " Bonjour a tous ",
    llm_tokens := 7,
    llm_stream := ["Bon", "jour", " a tous"],
    clone_voice := fun t =>
      { success := false, text := t, output_path := none,
        error := some "synthesis failed" } }

/-- Transcription whose first sentences are all longer than 20 characters. -/
def longSentencesText : String :=
  "This sentence is long enough indeed. Another quite long sentence follows here."

/-! ## Helper lemmas -/

theorem decodeStrs_encode (l : List String) :
    decodeStrs (l.map Json.str) = some l := by
  induction l with
  | nil => rfl
  | cons x xs ih => simp [decodeStrs, Json.asStr, ih]

theorem asStrOpt_optStrJson (o : Option String) :
    (optStrJson o).asStrOpt = some o := by
  cases o <;> rfl

theorem asStrList_encode (l : List String) :
    (Json.arr (l.map Json.str)).asStrList = some l := by
  simp [Json.asStrList, Json.asArr, decodeStrs_encode]

theorem decodeSocial_entry (sp : SocialProfile) :
    decodeSocial sp.entryJson = some sp.reload := by
  simp [decodeSocial, SocialProfile.entryJson, Json.asObj, Json.getD, Json.lookup,
        List.lookup, Json.asStr, asStrOpt_optStrJson, SocialProfile.reload]

theorem decodeSocials_encode (l : List SocialProfile) :
    decodeSocials (l.map SocialProfile.entryJson) = some (l.map SocialProfile.reload) := by
  induction l with
  | nil => rfl
  | cons x xs ih => simp [decodeSocials, decodeSocial_entry, ih]

theorem decodeFacette_entry (f : Facette) :
    decodeFacette f.entryJson = some f.reload := by
  simp [decodeFacette, Facette.entryJson, Json.asObj, Json.getD, Json.lookup,
        List.lookup, Json.asStr, asStrOpt_optStrJson, asStrList_encode, Facette.reload]

theorem decodeFacettes_encode (l : List Facette) :
    decodeFacettes (l.map Facette.entryJson) = some (l.map Facette.reload) := by
  induction l with
  | nil => rfl
  | cons x xs ih => simp [decodeFacettes, decodeFacette_entry, ih]

theorem load_to_dict (p : PersonProfile) (now : String) :
    PersonProfile.load now p.to_dict = some
      { p with social_profiles := p.social_profiles.map SocialProfile.reload,
               facettes := p.facettes.map Facette.reload,
               raw_info := [] } := by
  simp [PersonProfile.load, PersonProfile.to_dict, Json.asObj, Json.getD, Json.lookup,
        List.lookup, Json.asStr, Json.asArr, asStrOpt_optStrJson, asStrList_encode,
        decodeSocials_encode, decodeFacettes_encode, knownProfileKeys]

theorem load_renamed_aliases (p : PersonProfile) (now : String) :
    PersonProfile.load now (renameKey "professions" "occupations"
        (renameKey "bio" "biography" p.to_dict)) =
      PersonProfile.load now p.to_dict := by
  simp [renameKey, PersonProfile.load, PersonProfile.to_dict, Json.asObj, Json.getD,
        Json.lookup, List.lookup, Json.asStr, Json.asArr, asStrOpt_optStrJson,
        asStrList_encode, decodeSocials_encode, decodeFacettes_encode, knownProfileKeys]

theorem string_append_ne (d : String) {a b : String} (h : a ≠ b) : d ++ a ≠ d ++ b := by
  intro he
  apply h
  have hd : (d ++ a).data = (d ++ b).data := congrArg String.data he
  simp only [String.data_append] at hd
  have hab : a.data = b.data := List.append_cancel_left hd
  cases a
  cases b
  exact congrArg String.mk hab

theorem lookup_filter_ne {p q : String} (h : q ≠ p) :
    ∀ l : List (String × File),
      List.lookup q (List.filter (fun kv => kv.1 ≠ p) l) = List.lookup q l := by
  intro l
  induction l with
  | nil => rfl
  | cons kv rest ih =>
      obtain ⟨k, v⟩ := kv
      simp only [ne_eq, decide_not] at ih ⊢
      by_cases hk : k = p
      · subst hk
        simp [List.filter_cons, List.lookup, beq_eq_false_iff_ne.mpr h, ih]
      · by_cases hq : q = k
        · subst hq
          simp [List.filter_cons, hk, List.lookup]
        · simp [List.filter_cons, hk, List.lookup, beq_eq_false_iff_ne.mpr hq, ih]

theorem FS.get_set_self (fs : FS) (p : String) (f : File) :
    (fs.set p f).get p = some f := by
  simp [FS.get, FS.set, List.lookup]

theorem FS.get_set_ne (fs : FS) {p q : String} (h : q ≠ p) (f : File) :
    (fs.set p f).get q = fs.get q := by
  simp only [FS.get, FS.set, List.lookup, beq_eq_false_iff_ne.mpr h]
  exact lookup_filter_ne h fs

/-- C1 counterexample: for a profile whose facette carries a non-empty
`sources` list, `save` followed by `load` does not restore an identical
facette list — `to_dict` never serializes facette sources. -/
theorem profile_roundtrip_facette_sources_lost :
    Option.map PersonProfile.facettes
      (PersonProfile.load "2026-01-02T00:00:00" profileWithFacetteSources.to_dict)
      ≠ some profileWithFacetteSources.facettes := by decide

/-- C1 (amended): for every profile, `save` followed by `load` yields a
profile with identical name, professions, bio, location and keyword list;
the facette list is restored except that each facette's `sources` list —
which `to_dict` does not serialize — comes back empty; and a document whose
`professions`/`bio` keys are renamed to the documented aliases
`occupations`/`biography` loads to exactly the same profile. -/
theorem profile_save_load_roundtrip (p : PersonProfile) (now : String) :
    PersonProfile.load now p.to_dict = some
      { p with social_profiles := p.social_profiles.map SocialProfile.reload,
               facettes := p.facettes.map Facette.reload,
               raw_info := [] } ∧
    PersonProfile.load now (renameKey "professions" "occupations"
        (renameKey "bio" "biography" p.to_dict)) =
      PersonProfile.load now p.to_dict :=
  ⟨load_to_dict p now, load_renamed_aliases p now⟩

/-- C9 counterexample: on a transcription whose first sentence has at most
20 characters, the generated summary is not the first-N-sentences rendering
the claim describes — the short sentence is dropped. -/
theorem summary_short_sentence_dropped :
    generate_summary shortFirstSentenceText 5 ≠ summarySpec shortFirstSentenceText 5 := by
  decide

/-- C9 (amended): the summary consists of those of the first `max_points`
sentences longer than 20 characters, each rendered as a "- "-prefixed line
(with fixed fallback strings when there is no sentence, or none long
enough); in particular it coincides with the claim's first-N-sentences
rendering whenever each of the first `max_points` sentences is longer than
20 characters. -/
theorem generate_summary_first_long_sentences (text : String) (max_points : Nat) :
    (generate_summary text max_points =
      if splitSentences text = [] then "Aucun contenu a resumer."
      else if ((splitSentences text).take max_points).filter (fun s => 20 < s.length) = []
        then "Contenu trop court pour resumer."
      else joinSep "\n" ((((splitSentences text).take max_points).filter
          (fun s => 20 < s.length)).map (fun s => "- " ++ s))) ∧
    (splitSentences text ≠ [] → 0 < max_points →
      (∀ s ∈ (splitSentences text).take max_points, 20 < s.length) →
      generate_summary text max_points = summarySpec text max_points) := by
  constructor
  · by_cases h1 : splitSentences text = []
    · simp [generate_summary, h1]
    · by_cases h2 : ((splitSentences text).take max_points).filter (fun s => 20 < s.length) = []
      · simp [generate_summary, h1, h2]
      · simp [generate_summary, h1, h2]
  · intro h1 hmp hall
    have hfil : ((splitSentences text).take max_points).filter (fun s => 20 < s.length)
        = (splitSentences text).take max_points :=
      List.filter_eq_self.mpr (fun s hs => by simpa using hall s hs)
    have htake : (splitSentences text).take max_points ≠ [] := by
      intro he
      have hlen := congrArg List.length he
      rw [List.length_take, List.length_nil] at hlen
      rcases Nat.min_eq_zero_iff.mp hlen with h | h
      · omega
      · exact h1 (List.length_eq_zero.mp h)
    have hpts : (((splitSentences text).take max_points).filter
        (fun s => 20 < s.length)).map (fun s => "- " ++ s) ≠ [] := by
      rw [hfil]
      simpa using htake
    have hmp' : max_points ≠ 0 := by omega
    simp [generate_summary, summarySpec, h1, hfil, hpts, hmp']

/-- Witness for C9's amended theorem on a transcription whose first
sentences are all longer than 20 characters. -/
theorem generate_summary_first_long_sentences_witness :
    splitSentences longSentencesText ≠ [] ∧ 0 < 5 ∧
    (∀ s ∈ (splitSentences longSentencesText).take 5, 20 < s.length) ∧
    generate_summary longSentencesText 5 = summarySpec longSentencesText 5 :=
  ⟨by decide, by decide, by decide,
   (generate_summary_first_long_sentences longSentencesText 5).2 (by decide) (by decide) (by decide)⟩

/-- C6: `get_subject_dir` equals `data_dir` joined with the lowercased,
space-to-underscore subject name; two configurations with the same data
directory whose subject names agree after this normalization are mapped to
the same directory. -/
theorem get_subject_dir_normalized (c₁ c₂ : PipelineConfig)
    (hd : c₁.data_dir = c₂.data_dir)
    (hn : normalizeSubjectName c₁.subject_name = normalizeSubjectName c₂.subject_name) :
    c₁.get_subject_dir = c₁.data_dir ++ "/" ++ normalizeSubjectName c₁.subject_name ∧
    c₁.get_subject_dir = c₂.get_subject_dir := by
  have he : ∀ c : PipelineConfig,
      c.get_subject_dir = c.data_dir ++ "/" ++ normalizeSubjectName c.subject_name :=
    fun _ => rfl
  refine ⟨he c₁, ?_⟩
  rw [he c₁, he c₂, hd, hn]

/-- Witness for C6 on "John Doe" versus "John DOE". -/
theorem get_subject_dir_normalized_witness :
    johnConfig.data_dir = johnConfigUpper.data_dir ∧
    normalizeSubjectName johnConfig.subject_name =
      normalizeSubjectName johnConfigUpper.subject_name ∧
    (johnConfig.get_subject_dir =
        johnConfig.data_dir ++ "/" ++ normalizeSubjectName johnConfig.subject_name ∧
     johnConfig.get_subject_dir = johnConfigUpper.get_subject_dir) :=
  ⟨rfl, by decide, get_subject_dir_normalized johnConfig johnConfigUpper rfl (by decide)⟩

theorem streamConsume_closed (g : StreamGen) (hc : g.closed = true) :
    ∀ k, streamConsume g k = g := by
  intro k
  induction k with
  | zero => rfl
  | succ k ih => simp [streamConsume, streamNext, hc, ih]

theorem streamConsume_early (k : Nat) :
    ∀ g : StreamGen, g.closed = false → k ≤ g.remaining.length →
      (streamConsume g k).history = g.history := by
  induction k with
  | zero => intro g _ _; rfl
  | succ k ih =>
      intro g hc hk
      cases hrem : g.remaining with
      | nil =>
          rw [hrem] at hk
          exact absurd hk (by simp)
      | cons t ts =>
          have hstep : (streamNext g).2 =
              { g with full_response := g.full_response ++ t, remaining := ts } := by
            simp [streamNext, hc, hrem]
          show (streamConsume (streamNext g).2 k).history = g.history
          rw [hstep]
          exact ih _ hc (by rw [hrem] at hk; simpa using hk)

theorem streamConsume_exhaust (k : Nat) :
    ∀ g : StreamGen, g.closed = false → g.remaining.length < k →
      (streamConsume g k).history =
        g.history ++ [⟨"user", g.message⟩,
          ⟨"assistant", pyStrip (g.remaining.foldl (fun a t => a ++ t) g.full_response)⟩] := by
  induction k with
  | zero => intro g _ h; exact absurd h (Nat.not_lt_zero _)
  | succ k ih =>
      intro g hc hk
      cases hrem : g.remaining with
      | nil =>
          have hstep : (streamNext g).2 =
              { g with closed := true,
                       history := g.history ++ [⟨"user", g.message⟩,
                         ⟨"assistant", pyStrip g.full_response⟩] } := by
            simp [streamNext, hc, hrem]
          show (streamConsume (streamNext g).2 k).history = _
          rw [hstep, streamConsume_closed _ rfl]
          simp [hrem]
      | cons t ts =>
          have hstep : (streamNext g).2 =
              { g with full_response := g.full_response ++ t, remaining := ts } := by
            simp [streamNext, hc, hrem]
          have hts : ({ g with
              full_response := g.full_response ++ t,
              remaining := ts } : StreamGen).remaining.length < k := by
            rw [hrem] at hk
            simpa using hk
          show (streamConsume (streamNext g).2 k).history = _
          rw [hstep]
          rw [ih { g with full_response := g.full_response ++ t, remaining := ts } hc hts]
          simp

/-- C7: a consumer of `chat_stream` that stops after at most as many
`next()` calls as there are streamed fragments leaves the conversation
history exactly as it was; a consumer that iterates past the last fragment
(exhausting the generator) gets exactly one user turn and one assistant
turn — the stripped concatenation of all fragments — appended. -/
theorem chat_stream_history_on_exhaustion (env : ChatEnv) (eng : EngineState)
    (message : String) (k : Nat) :
    (k ≤ env.llm_stream.length →
      (streamConsume (chatStreamStart env eng message) k).history = eng.history) ∧
    (env.llm_stream.length < k →
      (streamConsume (chatStreamStart env eng message) k).history =
        eng.history ++ [⟨"user", message⟩,
          ⟨"assistant", pyStrip (env.llm_stream.foldl (fun a t => a ++ t) "")⟩]) := by
  constructor
  · intro hk
    exact streamConsume_early k _ rfl hk
  · intro hk
    exact streamConsume_exhaust k _ rfl hk

/-- Witness for C7: abandoning after 2 of 3 fragments leaves history
untouched; 4 calls exhaust the stream and append the two turns. -/
theorem chat_stream_history_witness :
    ((streamConsume (chatStreamStart chatEnvFail engVoice "Salut") 2).history =
      engVoice.history) ∧
    ((streamConsume (chatStreamStart chatEnvFail engVoice "Salut") 4).history =
      engVoice.history ++ [⟨"user", "Salut"⟩,
        ⟨"assistant", pyStrip (chatEnvFail.llm_stream.foldl (fun a t => a ++ t) "")⟩]) :=
  ⟨(chat_stream_history_on_exhaustion chatEnvFail engVoice "Salut" 2).1 (by decide),
   (chat_stream_history_on_exhaustion chatEnvFail engVoice "Salut" 4).2 (by decide)⟩

/-- C8: with voice synthesis requested, a cloner initialized and a
reference sample configured, `chat` invokes the voice cloner exactly once,
with the stripped generated text; the text is returned in any case, and a
failed cloning only yields `audio_path = none` — the failure is never
propagated as an error out of `chat` (in the source, `clone_voice` catches
every exception and reports it through `success = False`). -/
theorem chat_voice_failure_swallowed (env : ChatEnv) (eng : EngineState)
    (message : String) (hv : eng.has_voice_cloner = true)
    (hw : isTruthy eng.speaker_wav = true) :
    (AvatarEngine.chat env eng message true).2.2 = [pyStrip env.llm_text] ∧
    (AvatarEngine.chat env eng message true).1.text = pyStrip env.llm_text ∧
    ((env.clone_voice (pyStrip env.llm_text)).success = false →
      (AvatarEngine.chat env eng message true).1.audio_path = none) := by
  refine ⟨?_, ?_, ?_⟩ <;> simp [AvatarEngine.chat, hv, hw]
  intro h
  simp [h]

/-- Witness for C8 with an always-failing voice cloner. -/
theorem chat_voice_failure_swallowed_witness :
    engVoice.has_voice_cloner = true ∧ isTruthy engVoice.speaker_wav = true ∧
    ((AvatarEngine.chat chatEnvFail engVoice "Bonjour" true).2.2 =
        [pyStrip chatEnvFail.llm_text] ∧
     (AvatarEngine.chat chatEnvFail engVoice "Bonjour" true).1.text =
        pyStrip chatEnvFail.llm_text ∧
     ((chatEnvFail.clone_voice (pyStrip chatEnvFail.llm_text)).success = false →
       (AvatarEngine.chat chatEnvFail engVoice "Bonjour" true).1.audio_path = none)) :=
  ⟨rfl, by decide, chat_voice_failure_swallowed chatEnvFail engVoice "Bonjour" rfl (by decide)⟩

theorem runDocumentation_skip (env : Env) (dir : String) (st : PipelineState)
    (hget : st.2.get (dir ++ "/research/profile.json") = none) :
    runDocumentation env dir st = (true, st) := by
  unfold runDocumentation
  rw [hget]

theorem runPersona_skip (env : Env) (dir : String) (st : PipelineState)
    (hget : st.2.get (dir ++ "/research/profile.json") = none) :
    runPersona env dir st = (true, st) := by
  unfold runPersona
  rw [hget]

theorem runDocumentation_pass (env : Env) (dir : String) (st : PipelineState)
    (file : File) (p : PersonProfile)
    (hget : st.2.get (dir ++ "/research/profile.json") = some file)
    (hload : loadProfileFile env file = .ok p)
    (hw : env.docWrite = .ok ()) :
    runDocumentation env dir st = (true,
      ({ st.1 with steps_completed := st.1.steps_completed ++ ["documentation"] },
       if p.facettes ≠ [] then
         (st.2.set (dir ++ "/docs/profile.md") (.profileDoc p)).set
           (dir ++ "/docs/facettes.md") (.facettesDoc p.name p.facettes)
       else st.2.set (dir ++ "/docs/profile.md") (.profileDoc p))) := by
  unfold runDocumentation
  simp only [hget, hload, hw]

theorem runPersona_pass (env : Env) (dir : String) (st : PipelineState)
    (file : File) (p : PersonProfile)
    (hget : st.2.get (dir ++ "/research/profile.json") = some file)
    (hload : loadProfileFile env file = .ok p)
    (hw : env.personaWrite = .ok ()) :
    runPersona env dir st = (true,
      ({ st.1 with
           persona_path := some (dir ++ "/persona.json"),
           steps_completed := st.1.steps_completed ++ ["persona"] },
       (st.2.set (dir ++ "/persona.json")
          (.jsonFile (PromptGenerator.generate p "" none).saveJson)).set
         (dir ++ "/system_prompt.txt")
         (.textFile (PromptGenerator.generate p "" none).system_prompt))) := by
  unfold runPersona
  simp only [hget, hload, hw]

theorem docs_preserve_profile (fs : FS) (dir : String) (p : PersonProfile) :
    ((if p.facettes ≠ [] then
        (fs.set (dir ++ "/docs/profile.md") (.profileDoc p)).set
          (dir ++ "/docs/facettes.md") (.facettesDoc p.name p.facettes)
      else fs.set (dir ++ "/docs/profile.md") (.profileDoc p)) : FS).get
      (dir ++ "/research/profile.json") = fs.get (dir ++ "/research/profile.json") := by
  have h1 : dir ++ "/research/profile.json" ≠ dir ++ "/docs/profile.md" :=
    string_append_ne dir (by decide)
  have h2 : dir ++ "/research/profile.json" ≠ dir ++ "/docs/facettes.md" :=
    string_append_ne dir (by decide)
  by_cases hfac : p.facettes ≠ []
  · rw [if_pos hfac, FS.get_set_ne _ h2, FS.get_set_ne _ h1]
  · rw [if_neg hfac, FS.get_set_ne _ h1]

theorem runDocumentation_raise (env : Env) (dir : String) (st : PipelineState)
    (m : String) (h : docRaises env dir st.2 m) :
    runDocumentation env dir st = (false, setError st m) := by
  obtain ⟨file, hget, hrest⟩ := h
  unfold runDocumentation
  simp only [hget]
  rcases hrest with hload | ⟨p, hload, hw⟩
  · simp only [hload]
  · simp only [hload, hw]

theorem runPersona_raise (env : Env) (dir : String) (st : PipelineState)
    (m : String) (h : personaRaises env dir st.2 m) :
    runPersona env dir st = (false, setError st m) := by
  obtain ⟨file, p, hget, hload, hw⟩ := h
  unfold runPersona
  simp only [hget, hload, hw]

theorem runAudio_raise (env : Env) (cfg : PipelineConfig) (st : PipelineState)
    (m : String) (h : audioRaises env cfg m) :
    runAudio env cfg st = (false, setError st m) := by
  unfold runAudio separateStep
  rcases h with ⟨hu, hdl⟩ | ⟨hu, hf, hrest⟩
  · simp only [hu, if_true]
    rcases hdl with hd | ⟨r, hd, hs, hm⟩ | ⟨r, hd, hs, hsep⟩
    · simp only [hd]
    · subst hm
      simp only [hd, hs, Bool.false_eq_true, if_false]
    · rcases hsep with hse | ⟨s, hse, hss, hm⟩
      · simp only [hd, hs, if_true, hse]
      · subst hm
        simp only [hd, hs, if_true, hse, hss, Bool.false_eq_true, if_false]
  · cases hfile : cfg.audio_file with
    | none => rw [hfile] at hf; exact absurd hf (by simp [isTruthy])
    | some f =>
        rw [hfile] at hf
        simp only [hu, Bool.false_eq_true, if_false, hfile, hf, if_true]
        rcases hrest with ⟨hex, f2, hf2, hm⟩ | ⟨hex, hsep⟩
        · rw [hfile] at hf2
          obtain rfl : f = f2 := by injection hf2
          subst hm
          simp only [hex, Bool.false_eq_true, if_false]
        · simp only [hex, if_true]
          rcases hsep with hse | ⟨s, hse, hss, hm⟩
          · simp only [hse]
          · subst hm
            simp only [hse, hss, Bool.false_eq_true, if_false]

theorem audioRaises_src (env : Env) (cfg : PipelineConfig) (m : String)
    (h : audioRaises env cfg m) :
    (isTruthy cfg.audio_url || isTruthy cfg.audio_file) = true := by
  rcases h with ⟨hu, _⟩ | ⟨hu2, hf, _⟩
  · simp [hu]
  · simp [hf]

theorem runAudio_pass (env : Env) (cfg : PipelineConfig) (st : PipelineState)
    (h : audioPasses env cfg)
    (hsrc : (isTruthy cfg.audio_url || isTruthy cfg.audio_file) = true) :
    ∃ s : ExtCallResult, env.separate = .ok s ∧ s.success = true ∧
      runAudio env cfg st = (true,
        ({ st.1 with
             vocals_path := some s.output_path,
             steps_completed := st.1.steps_completed ++ ["audio"] }, st.2)) := by
  unfold runAudio separateStep
  rcases h with hnone | ⟨hu, r, s, hd, hrs, hse, hss⟩ | ⟨hu, hf, hex, s, hse, hss⟩
  · rw [hnone] at hsrc
    exact absurd hsrc (by simp)
  · refine ⟨s, hse, hss, ?_⟩
    simp only [hu, if_true, hd, hrs, hse, hss]
  · refine ⟨s, hse, hss, ?_⟩
    cases hfile : cfg.audio_file with
    | none =>
        rw [hfile] at hf
        exact absurd hf (by simp [isTruthy])
    | some f =>
        rw [hfile] at hf
        simp only [hu, Bool.false_eq_true, if_false, hfile, hf, if_true, hex, hse, hss]

theorem runFromPersona_raise (env : Env) (dir : String) (st : PipelineState)
    (trace : List String) (m : String) (h : personaRaises env dir st.2 m) :
    runFromPersona env dir st trace =
      ({ st.1 with error := some m }, st.2, trace ++ ["persona"]) := by
  unfold runFromPersona
  rw [runPersona_raise env dir st m h]
  rfl

theorem runFromPersona_pass (env : Env) (dir : String) (st : PipelineState)
    (trace : List String)
    (h : st.2.get (dir ++ "/research/profile.json") = none ∨
      ∃ file p, st.2.get (dir ++ "/research/profile.json") = some file ∧
        loadProfileFile env file = .ok p ∧ env.personaWrite = .ok ()) :
    (runFromPersona env dir st trace).1.success = true ∧
    (runFromPersona env dir st trace).1.error = st.1.error ∧
    (runFromPersona env dir st trace).2.2 = trace ++ ["persona"] ∧
    ∃ tail, (runFromPersona env dir st trace).1.steps_completed =
      st.1.steps_completed ++ tail ∧ (tail = [] ∨ tail = ["persona"]) := by
  unfold runFromPersona
  rcases h with hget | ⟨file, p, hget, hload, hw⟩
  · rw [runPersona_skip env dir st hget]
    exact ⟨rfl, rfl, rfl, [], by simp, Or.inl rfl⟩
  · rw [runPersona_pass env dir st file p hget hload hw]
    exact ⟨rfl, rfl, rfl, ["persona"], rfl, Or.inr rfl⟩

theorem runFromDocumentation_raise (env : Env) (dir : String) (st : PipelineState)
    (trace : List String) (m : String) (h : docRaises env dir st.2 m) :
    runFromDocumentation env dir st trace =
      ({ st.1 with error := some m }, st.2, trace ++ ["documentation"]) := by
  unfold runFromDocumentation
  rw [runDocumentation_raise env dir st m h]
  rfl

theorem runFromDocumentation_pass (env : Env) (dir : String) (st : PipelineState)
    (trace : List String) (hdoc : docPasses env dir st.2) :
    ∃ st1 : PipelineState,
      runFromDocumentation env dir st trace =
        runFromPersona env dir st1 (trace ++ ["documentation"]) ∧
      st1.1.success = st.1.success ∧
      st1.1.error = st.1.error ∧
      st1.1.profile_path = st.1.profile_path ∧
      st1.1.persona_path = st.1.persona_path ∧
      st1.2.get (dir ++ "/research/profile.json") =
        st.2.get (dir ++ "/research/profile.json") ∧
      ∃ tail, st1.1.steps_completed = st.1.steps_completed ++ tail ∧
        (tail = [] ∨ tail = ["documentation"]) := by
  rcases hdoc with hget | ⟨file, p, hget, hload, hw⟩
  · refine ⟨st, ?_, rfl, rfl, rfl, rfl, rfl, [], by simp, Or.inl rfl⟩
    unfold runFromDocumentation
    rw [runDocumentation_skip env dir st hget]
  · refine ⟨({ st.1 with steps_completed := st.1.steps_completed ++ ["documentation"] },
      if p.facettes ≠ [] then
        (st.2.set (dir ++ "/docs/profile.md") (.profileDoc p)).set
          (dir ++ "/docs/facettes.md") (.facettesDoc p.name p.facettes)
      else st.2.set (dir ++ "/docs/profile.md") (.profileDoc p)),
      ?_, rfl, rfl, rfl, rfl, ?_, ["documentation"], rfl, Or.inr rfl⟩
    · unfold runFromDocumentation
      rw [runDocumentation_pass env dir st file p hget hload hw]
    · exact (docs_preserve_profile st.2 dir p).trans rfl

theorem runFromAudio_skip (env : Env) (cfg : PipelineConfig) (dir : String)
    (st : PipelineState) (trace : List String)
    (h : (isTruthy cfg.audio_url || isTruthy cfg.audio_file) = false) :
    runFromAudio env cfg dir st trace = runFromDocumentation env dir st trace := by
  unfold runFromAudio
  simp only [h, Bool.false_eq_true, if_false]

theorem runFromAudio_raise (env : Env) (cfg : PipelineConfig) (dir : String)
    (st : PipelineState) (trace : List String) (m : String)
    (h : audioRaises env cfg m) :
    runFromAudio env cfg dir st trace =
      ({ st.1 with error := some m }, st.2, trace ++ ["audio"]) := by
  unfold runFromAudio
  simp only [audioRaises_src env cfg m h, if_true, runAudio_raise env cfg st m h]
  rfl

theorem runFromAudio_pass (env : Env) (cfg : PipelineConfig) (dir : String)
    (st : PipelineState) (trace : List String) (h : audioPasses env cfg) :
    ∃ st1 : PipelineState, ∃ extra : List String,
      runFromAudio env cfg dir st trace =
        runFromDocumentation env dir st1 (trace ++ extra) ∧
      st1.1.success = st.1.success ∧ st1.1.error = st.1.error ∧
      st1.1.profile_path = st.1.profile_path ∧
      st1.1.persona_path = st.1.persona_path ∧
      st1.2 = st.2 ∧
      (extra = [] ∨ extra = ["audio"]) ∧
      ∃ tail, st1.1.steps_completed = st.1.steps_completed ++ tail ∧
        (tail = [] ∨ tail = ["audio"]) := by
  by_cases hsrc : (isTruthy cfg.audio_url || isTruthy cfg.audio_file) = true
  · obtain ⟨s, hse, hss, heq⟩ := runAudio_pass env cfg st h hsrc
    refine ⟨({ st.1 with
        vocals_path := some s.output_path,
        steps_completed := st.1.steps_completed ++ ["audio"] }, st.2),
      ["audio"], ?_, rfl, rfl, rfl, rfl, rfl, Or.inr rfl, ["audio"], rfl, Or.inr rfl⟩
    unfold runFromAudio
    simp only [hsrc, if_true, heq]
  · have hsrc' : (isTruthy cfg.audio_url || isTruthy cfg.audio_file) = false := by
      revert hsrc
      cases isTruthy cfg.audio_url || isTruthy cfg.audio_file <;> simp
    refine ⟨st, [], ?_, rfl, rfl, rfl, rfl, rfl, Or.inl rfl, [], by simp, Or.inl rfl⟩
    rw [runFromAudio_skip env cfg dir st trace hsrc', List.append_nil]

theorem run_research_raise (env : Env) (cfg : PipelineConfig) (fs : FS) (m : String)
    (herr : env.search_extract = .error m) :
    HumanPipeline.run env cfg false fs =
      ({ initResult cfg with error := some m }, fs, ["research"]) := by
  unfold HumanPipeline.run runResearch
  simp only [herr, Bool.false_eq_true, if_false]
  rfl

theorem run_stage2 (env : Env) (cfg : PipelineConfig) (skip : Bool) (fs : FS)
    (h : researchPasses env skip) :
    ∃ st1 : PipelineState, ∃ trace0 : List String,
      HumanPipeline.run env cfg skip fs =
        runFromAudio env cfg cfg.get_subject_dir st1 trace0 ∧
      st1.1.success = false ∧ st1.1.error = none ∧ st1.1.persona_path = none ∧
      st1.2 = fsAfterResearch env cfg skip fs ∧
      (st1.1.steps_completed = [] ∨ st1.1.steps_completed = ["research"]) ∧
      (trace0 = [] ∨ trace0 = ["research"]) := by
  cases skip with
  | true =>
      refine ⟨({ initResult cfg with
          profile_path := some (cfg.get_subject_dir ++ "/research/profile.json") }, fs),
        [], ?_, rfl, rfl, rfl, ?_, Or.inl rfl, Or.inl rfl⟩
      · rfl
      · simp [fsAfterResearch]
  | false =>
      rcases h with hskip | ⟨p, hok⟩
      · exact absurd hskip (by simp)
      · refine ⟨({ initResult cfg with
            profile_path := some (cfg.get_subject_dir ++ "/research/profile.json"),
            steps_completed := ["research"] },
          fs.set (cfg.get_subject_dir ++ "/research/profile.json")
            (.jsonFile p.to_dict)),
          ["research"], ?_, rfl, rfl, rfl, ?_, Or.inr rfl, Or.inr rfl⟩
        · unfold HumanPipeline.run runResearch
          simp only [hok, Bool.false_eq_true, if_false]
          rfl
        · simp [fsAfterResearch, hok]

/-- C2 (amended): when a phase of `run` raises an exception with string
form `m`, the run returns `success = false` with `error` equal to `m`
(non-empty exactly when the exception's message is), `steps_completed`
contains no step at or after the failing phase, and no later phase is
attempted. -/
theorem run_phase_exception_aborts (env : Env) (cfg : PipelineConfig) (skip : Bool)
    (fs : FS) (ph : Phase) (m : String) (h : raisesAt env cfg skip fs ph m) :
    (HumanPipeline.run env cfg skip fs).1.success = false ∧
    (HumanPipeline.run env cfg skip fs).1.error = some m ∧
    (∀ q : Phase, ph.idx ≤ q.idx →
      q.step ∉ (HumanPipeline.run env cfg skip fs).1.steps_completed) ∧
    (∀ q : Phase, ph.idx < q.idx →
      q.step ∉ (HumanPipeline.run env cfg skip fs).2.2) := by
  cases ph with
  | research =>
      obtain ⟨hskip, herr⟩ := h
      subst hskip
      rw [run_research_raise env cfg fs m herr]
      refine ⟨rfl, rfl, ?_, ?_⟩
      · intro q hq
        simp [initResult]
      · intro q hq
        cases q <;> simp_all [Phase.idx, Phase.step]
  | audio =>
      obtain ⟨hr, ha⟩ := h
      obtain ⟨st1, trace0, hrun, hsc, herr0, hpp, hfs, hsteps, htr⟩ :=
        run_stage2 env cfg skip fs hr
      rw [hrun, runFromAudio_raise env cfg cfg.get_subject_dir st1 trace0 m ha]
      refine ⟨hsc, rfl, ?_, ?_⟩
      · intro q hq
        rcases hsteps with hs | hs <;> rw [hs] <;>
          cases q <;> simp_all [Phase.idx, Phase.step]
      · intro q hq
        rcases htr with ht | ht <;> rw [ht] <;>
          cases q <;> simp_all [Phase.idx, Phase.step]
  | documentation =>
      obtain ⟨hr, ha, hd⟩ := h
      obtain ⟨st1, trace0, hrun, hsc, herr0, hpp, hfs, hsteps, htr⟩ :=
        run_stage2 env cfg skip fs hr
      obtain ⟨st2, extra, heq2, hsc2, herr2, hprof2, hpers2, hfs2, hex, tail2, hst2, htail2⟩ :=
        runFromAudio_pass env cfg cfg.get_subject_dir st1 trace0 ha
      have hd2 : docRaises env cfg.get_subject_dir st2.2 m := by
        rw [hfs2, hfs]
        exact hd
      rw [hrun, heq2,
        runFromDocumentation_raise env cfg.get_subject_dir st2 (trace0 ++ extra) m hd2]
      refine ⟨hsc2.trans hsc, rfl, ?_, ?_⟩
      · intro q hq
        rw [hst2]
        rcases hsteps with hs | hs <;> rw [hs] <;> rcases htail2 with ht | ht <;> rw [ht] <;>
          cases q <;> simp_all [Phase.idx, Phase.step]
      · intro q hq
        rcases htr with ht0 | ht0 <;> rw [ht0] <;> rcases hex with he | he <;> rw [he] <;>
          cases q <;> simp_all [Phase.idx, Phase.step]
  | persona =>
      obtain ⟨hr, ha, hdp, hper⟩ := h
      obtain ⟨st1, trace0, hrun, hsc, herr0, hpp, hfs, hsteps, htr⟩ :=
        run_stage2 env cfg skip fs hr
      obtain ⟨st2, extra, heq2, hsc2, herr2, hprof2, hpers2, hfs2, hex, tail2, hst2, htail2⟩ :=
        runFromAudio_pass env cfg cfg.get_subject_dir st1 trace0 ha
      have hdp2 : docPasses env cfg.get_subject_dir st2.2 := by
        rw [hfs2, hfs]
        exact hdp
      obtain ⟨st3, heq3, hsc3, herr3, hprof3, hpers3, hget3, tail3, hst3, htail3⟩ :=
        runFromDocumentation_pass env cfg.get_subject_dir st2 (trace0 ++ extra) hdp2
      have hper3 : personaRaises env cfg.get_subject_dir st3.2 m := by
        obtain ⟨file, p, hget, hload, hw⟩ := hper
        refine ⟨file, p, ?_, hload, hw⟩
        rw [hget3, hfs2, hfs]
        exact hget
      rw [hrun, heq2, heq3,
        runFromPersona_raise env cfg.get_subject_dir st3 (trace0 ++ extra ++ ["documentation"]) m hper3]
      refine ⟨hsc3.trans (hsc2.trans hsc), rfl, ?_, ?_⟩
      · intro q hq
        rw [hst3, hst2]
        rcases hsteps with hs | hs <;> rw [hs] <;> rcases htail2 with ht | ht <;> rw [ht] <;>
          rcases htail3 with ht3 | ht3 <;> rw [ht3] <;>
          cases q <;> simp_all [Phase.idx, Phase.step]
      · intro q hq
        rcases htr with ht0 | ht0 <;> rw [ht0] <;> rcases hex with he | he <;> rw [he] <;>
          cases q <;> simp_all [Phase.idx, Phase.step]

/-- C3: with neither an audio URL nor a local audio file configured,
`run` never records an "audio" step, and its result is successful whenever
research, documentation and persona all succeed. -/
theorem run_no_audio_source (env : Env) (cfg : PipelineConfig) (fs : FS)
    (hu : isTruthy cfg.audio_url = false) (hf : isTruthy cfg.audio_file = false) :
    "audio" ∉ (HumanPipeline.run env cfg false fs).1.steps_completed ∧
    ((∃ p, env.search_extract = .ok p) → env.docWrite = .ok () →
      env.personaWrite = .ok () →
      (HumanPipeline.run env cfg false fs).1.success = true) := by
  have hsrc : (isTruthy cfg.audio_url || isTruthy cfg.audio_file) = false := by
    simp [hu, hf]
  cases hres : env.search_extract with
  | error e =>
      rw [run_research_raise env cfg fs e hres]
      constructor
      · simp [initResult]
      · intro hp _ _
        obtain ⟨p, hp⟩ := hp
        exact Except.noConfusion hp
  | ok p =>
      obtain ⟨st1, trace0, hrun, hsc, herr0, hpp, hfs, hsteps, htr⟩ :=
        run_stage2 env cfg false fs (Or.inr ⟨p, hres⟩)
      rw [hrun, runFromAudio_skip env cfg cfg.get_subject_dir st1 trace0 hsrc]
      have hget1 : st1.2.get (cfg.get_subject_dir ++ "/research/profile.json") =
          some (.jsonFile p.to_dict) := by
        rw [hfs]
        simp only [fsAfterResearch, Bool.false_eq_true, if_false, hres]
        exact FS.get_set_self fs _ _
      have hload : loadProfileFile env (.jsonFile p.to_dict) = .ok
          { p with social_profiles := p.social_profiles.map SocialProfile.reload,
                   facettes := p.facettes.map Facette.reload,
                   raw_info := [] } := by
        simp [loadProfileFile, load_to_dict]
      cases hdw : env.docWrite with
      | error e =>
          rw [runFromDocumentation_raise env cfg.get_subject_dir st1 trace0 e
            ⟨_, hget1, Or.inr ⟨_, hload, hdw⟩⟩]
          constructor
          · rcases hsteps with hs | hs <;> simp [hs]
          · intro _ hdok _
            exact Except.noConfusion hdok
      | ok u =>
          cases u
          have hdp : docPasses env cfg.get_subject_dir st1.2 :=
            Or.inr ⟨_, _, hget1, hload, hdw⟩
          obtain ⟨st3, heq3, hsc3, herr3, hprof3, hpers3, hget3, tail3, hst3, htail3⟩ :=
            runFromDocumentation_pass env cfg.get_subject_dir st1 trace0 hdp
          rw [heq3]
          have hget3' : st3.2.get (cfg.get_subject_dir ++ "/research/profile.json") =
              some (.jsonFile p.to_dict) := hget3.trans hget1
          cases hpw : env.personaWrite with
          | error e =>
              rw [runFromPersona_raise env cfg.get_subject_dir st3
                (trace0 ++ ["documentation"]) e ⟨_, _, hget3', hload, hpw⟩]
              constructor
              · show "audio" ∉ st3.1.steps_completed
                rw [hst3]
                rcases hsteps with hs | hs <;> rcases htail3 with ht | ht <;> simp [hs, ht]
              · intro _ _ hpok
                exact Except.noConfusion hpok
          | ok u2 =>
              cases u2
              obtain ⟨hsucc, herr4, htr4, tail4, hst4, htail4⟩ :=
                runFromPersona_pass env cfg.get_subject_dir st3
                  (trace0 ++ ["documentation"]) (Or.inr ⟨_, _, hget3', hload, hpw⟩)
              constructor
              · rw [hst4, hst3]
                rcases hsteps with hs | hs <;> rcases htail3 with ht | ht <;>
                  rcases htail4 with h4 | h4 <;> simp [hs, ht, h4]
              · intro _ _ _
                exact hsucc

/-- C4: with `skip_research` and no profile document on disk, the
documentation and persona phases return `True` without writing anything or
appending their step names, and the whole run (with no audio source)
succeeds with an empty step list rather than failing. -/
theorem run_skip_research_missing_profile_noops (env : Env) (cfg : PipelineConfig)
    (fs : FS) (r : PipelineResult)
    (hprof : fs.get (cfg.get_subject_dir ++ "/research/profile.json") = none)
    (hu : isTruthy cfg.audio_url = false) (hf : isTruthy cfg.audio_file = false) :
    runDocumentation env cfg.get_subject_dir (r, fs) = (true, (r, fs)) ∧
    runPersona env cfg.get_subject_dir (r, fs) = (true, (r, fs)) ∧
    (HumanPipeline.run env cfg true fs).1.success = true ∧
    (HumanPipeline.run env cfg true fs).1.steps_completed = [] := by
  have hsrc : (isTruthy cfg.audio_url || isTruthy cfg.audio_file) = false := by
    simp [hu, hf]
  refine ⟨runDocumentation_skip env cfg.get_subject_dir (r, fs) hprof,
    runPersona_skip env cfg.get_subject_dir (r, fs) hprof, ?_⟩
  have hfull : HumanPipeline.run env cfg true fs =
      ({ initResult cfg with
          profile_path := some (cfg.get_subject_dir ++ "/research/profile.json"),
          success := true }, fs, ["documentation", "persona"]) := by
    rw [show HumanPipeline.run env cfg true fs =
        runFromAudio env cfg cfg.get_subject_dir
          ({ initResult cfg with
              profile_path := some (cfg.get_subject_dir ++ "/research/profile.json") },
            fs) [] from rfl]
    rw [runFromAudio_skip env cfg cfg.get_subject_dir _ [] hsrc]
    unfold runFromDocumentation
    rw [runDocumentation_skip env cfg.get_subject_dir
      ({ initResult cfg with
          profile_path := some (cfg.get_subject_dir ++ "/research/profile.json") },
        fs) hprof]
    show runFromPersona env cfg.get_subject_dir
      ({ initResult cfg with
          profile_path := some (cfg.get_subject_dir ++ "/research/profile.json") },
        fs) ([] ++ ["documentation"]) = _
    unfold runFromPersona
    rw [runPersona_skip env cfg.get_subject_dir
      ({ initResult cfg with
          profile_path := some (cfg.get_subject_dir ++ "/research/profile.json") },
        fs) hprof]
    rfl
  rw [hfull]
  exact ⟨rfl, rfl⟩

theorem runPersona_profile_path (env : Env) (dir : String) (st : PipelineState) :
    (runPersona env dir st).2.1.profile_path = st.1.profile_path := by
  unfold runPersona
  repeat' split
  all_goals rfl

theorem runDocumentation_profile_path (env : Env) (dir : String) (st : PipelineState) :
    (runDocumentation env dir st).2.1.profile_path = st.1.profile_path := by
  unfold runDocumentation
  repeat' split
  all_goals rfl

theorem runAudio_profile_path (env : Env) (cfg : PipelineConfig) (st : PipelineState) :
    (runAudio env cfg st).2.1.profile_path = st.1.profile_path := by
  unfold runAudio separateStep
  repeat' split
  all_goals rfl

theorem runFromPersona_profile_path (env : Env) (dir : String) (st : PipelineState)
    (trace : List String) :
    (runFromPersona env dir st trace).1.profile_path = st.1.profile_path := by
  unfold runFromPersona
  have h := runPersona_profile_path env dir st
  cases hp : runPersona env dir st with
  | mk ok st1 =>
      rw [hp] at h
      cases ok
      · exact h
      · exact h

theorem runFromDocumentation_profile_path (env : Env) (dir : String)
    (st : PipelineState) (trace : List String) :
    (runFromDocumentation env dir st trace).1.profile_path = st.1.profile_path := by
  unfold runFromDocumentation
  have h := runDocumentation_profile_path env dir st
  cases hp : runDocumentation env dir st with
  | mk ok st1 =>
      rw [hp] at h
      cases ok
      · exact h
      · exact (runFromPersona_profile_path env dir st1 _).trans h

theorem runFromAudio_profile_path (env : Env) (cfg : PipelineConfig) (dir : String)
    (st : PipelineState) (trace : List String) :
    (runFromAudio env cfg dir st trace).1.profile_path = st.1.profile_path := by
  unfold runFromAudio
  by_cases hsrc : (isTruthy cfg.audio_url || isTruthy cfg.audio_file) = true
  · simp only [hsrc, if_true]
    have h := runAudio_profile_path env cfg st
    cases hp : runAudio env cfg st with
    | mk ok st1 =>
        rw [hp] at h
        cases ok
        · exact h
        · exact (runFromDocumentation_profile_path env dir st1 _).trans h
  · have hsrc' : (isTruthy cfg.audio_url || isTruthy cfg.audio_file) = false := by
      revert hsrc
      cases isTruthy cfg.audio_url || isTruthy cfg.audio_file <;> simp
    simp only [hsrc', Bool.false_eq_true, if_false]
    exact runFromDocumentation_profile_path env dir st trace

/-- C10: every `skip_research` run sets `profile_path` to the conventional
location unconditionally, before any later phase runs and whether or not
the file exists; with no audio source and no profile on disk the run
succeeds with an empty `steps_completed` while `profile_path` names a file
absent from the final filesystem. -/
theorem run_skip_research_sets_profile_path (env : Env) (cfg : PipelineConfig)
    (fs : FS) :
    (HumanPipeline.run env cfg true fs).1.profile_path =
      some (cfg.get_subject_dir ++ "/research/profile.json") ∧
    (isTruthy cfg.audio_url = false → isTruthy cfg.audio_file = false →
      fs.get (cfg.get_subject_dir ++ "/research/profile.json") = none →
      (HumanPipeline.run env cfg true fs).1.success = true ∧
      (HumanPipeline.run env cfg true fs).1.steps_completed = [] ∧
      (HumanPipeline.run env cfg true fs).2.1.get
        (cfg.get_subject_dir ++ "/research/profile.json") = none) := by
  constructor
  · rw [show HumanPipeline.run env cfg true fs =
        runFromAudio env cfg cfg.get_subject_dir
          ({ initResult cfg with
              profile_path := some (cfg.get_subject_dir ++ "/research/profile.json") },
            fs) [] from rfl]
    exact runFromAudio_profile_path env cfg cfg.get_subject_dir _ []
  · intro hu hf hprof
    have hsrc : (isTruthy cfg.audio_url || isTruthy cfg.audio_file) = false := by
      simp [hu, hf]
    have hfull : HumanPipeline.run env cfg true fs =
        ({ initResult cfg with
            profile_path := some (cfg.get_subject_dir ++ "/research/profile.json"),
            success := true }, fs, ["documentation", "persona"]) := by
      rw [show HumanPipeline.run env cfg true fs =
          runFromAudio env cfg cfg.get_subject_dir
            ({ initResult cfg with
                profile_path := some (cfg.get_subject_dir ++ "/research/profile.json") },
              fs) [] from rfl]
      rw [runFromAudio_skip env cfg cfg.get_subject_dir _ [] hsrc]
      unfold runFromDocumentation
      rw [runDocumentation_skip env cfg.get_subject_dir
        ({ initResult cfg with
            profile_path := some (cfg.get_subject_dir ++ "/research/profile.json") },
          fs) hprof]
      show runFromPersona env cfg.get_subject_dir
        ({ initResult cfg with
            profile_path := some (cfg.get_subject_dir ++ "/research/profile.json") },
          fs) ([] ++ ["documentation"]) = _
      unfold runFromPersona
      rw [runPersona_skip env cfg.get_subject_dir
        ({ initResult cfg with
            profile_path := some (cfg.get_subject_dir ++ "/research/profile.json") },
          fs) hprof]
      rfl
    rw [hfull]
    exact ⟨rfl, rfl, hprof⟩

/-- C5: the example scenario — subject "John Doe", source-default
configuration, no audio source, stubbed research returning a profile — puts
the subject directory at `data/subjects/john_doe`, completes exactly the
steps research, documentation, persona in order, and leaves `persona_path`
pointing at an existing `persona.json` whose top-level name field is the
un-normalized "John Doe". -/
theorem run_john_doe_scenario :
    (HumanPipeline.run johnEnv johnConfig false ([] : FS)).1.subject_dir =
      "data/subjects/john_doe" ∧
    (HumanPipeline.run johnEnv johnConfig false ([] : FS)).1.steps_completed =
      ["research", "documentation", "persona"] ∧
    (HumanPipeline.run johnEnv johnConfig false ([] : FS)).1.persona_path =
      some "data/subjects/john_doe/persona.json" ∧
    fileNameField ((HumanPipeline.run johnEnv johnConfig false ([] : FS)).2.1.get
      "data/subjects/john_doe/persona.json") = some "John Doe" :=
  ⟨by decide, by decide, by decide, by decide⟩

/-- C2 counterexample: a phase exception whose string form is empty (e.g.
`Exception("")`) yields `error = some ""` — an empty error string, against
the claim's "non-empty error string". -/
theorem run_error_message_can_be_empty :
    (HumanPipeline.run emptyMsgEnv johnConfig false ([] : FS)).1.success = false ∧
    (HumanPipeline.run emptyMsgEnv johnConfig false ([] : FS)).1.error = some "" :=
  ⟨by decide, by decide⟩

/-- Witness for C2's amended theorem: the research phase raising "boom". -/
theorem run_phase_exception_aborts_witness :
    raisesAt boomEnv johnConfig false ([] : FS) .research "boom" ∧
    ((HumanPipeline.run boomEnv johnConfig false ([] : FS)).1.success = false ∧
     (HumanPipeline.run boomEnv johnConfig false ([] : FS)).1.error = some "boom" ∧
     (∀ q : Phase, Phase.idx .research ≤ q.idx →
       q.step ∉ (HumanPipeline.run boomEnv johnConfig false ([] : FS)).1.steps_completed) ∧
     (∀ q : Phase, Phase.idx .research < q.idx →
       q.step ∉ (HumanPipeline.run boomEnv johnConfig false ([] : FS)).2.2)) :=
  ⟨⟨rfl, rfl⟩,
   run_phase_exception_aborts boomEnv johnConfig false ([] : FS) .research "boom" ⟨rfl, rfl⟩⟩

/-- Witness for C3 in the all-success environment with no audio source. -/
theorem run_no_audio_source_witness :
    "audio" ∉ (HumanPipeline.run johnEnv johnConfig false ([] : FS)).1.steps_completed ∧
    (HumanPipeline.run johnEnv johnConfig false ([] : FS)).1.success = true :=
  ⟨(run_no_audio_source johnEnv johnConfig ([] : FS) rfl rfl).1,
   (run_no_audio_source johnEnv johnConfig ([] : FS) rfl rfl).2 ⟨johnProfile, rfl⟩ rfl rfl⟩

/-- Witness for C4: skipped research on an empty filesystem. -/
theorem run_skip_research_missing_profile_noops_witness :
    runDocumentation johnEnv johnConfig.get_subject_dir (initResult johnConfig, ([] : FS)) =
      (true, (initResult johnConfig, ([] : FS))) ∧
    runPersona johnEnv johnConfig.get_subject_dir (initResult johnConfig, ([] : FS)) =
      (true, (initResult johnConfig, ([] : FS))) ∧
    (HumanPipeline.run johnEnv johnConfig true ([] : FS)).1.success = true ∧
    (HumanPipeline.run johnEnv johnConfig true ([] : FS)).1.steps_completed = [] :=
  run_skip_research_missing_profile_noops johnEnv johnConfig ([] : FS)
    (initResult johnConfig) rfl rfl rfl

/-- Witness for C10: skipped research on an empty filesystem. -/
theorem run_skip_research_sets_profile_path_witness :
    (HumanPipeline.run johnEnv johnConfig true ([] : FS)).1.profile_path =
      some (johnConfig.get_subject_dir ++ "/research/profile.json") ∧
    ((HumanPipeline.run johnEnv johnConfig true ([] : FS)).1.success = true ∧
     (HumanPipeline.run johnEnv johnConfig true ([] : FS)).1.steps_completed = [] ∧
     (HumanPipeline.run johnEnv johnConfig true ([] : FS)).2.1.get
       (johnConfig.get_subject_dir ++ "/research/profile.json") = none) :=
  ⟨(run_skip_research_sets_profile_path johnEnv johnConfig ([] : FS)).1,
   (run_skip_research_sets_profile_path johnEnv johnConfig ([] : FS)).2 rfl rfl rfl⟩
